import Mathlib

/-!
# Verification of the blixt TCP ingress load balancer

A shallow embedding of `src/dataplane/ebpf/src/ingress/tcp.rs`
(`handle_tcp_ingress`) together with theorems settling the behavioural
claims about it: stickiness, round-robin selection, fail-open error
paths, reset handling and record creation.

Machine integers are modelled as `Nat` with explicit truncation where the
code truncates; the eBPF maps are modelled as association lists with
per-key get/insert/remove; the frame is a structure holding the parsed
Ethernet/IPv4/TCP header fields plus the payload bytes, together with the
frame length used by the bounds checks.
-/

set_option autoImplicit false

namespace Blixt

/-- `u16::from_be` / `u16::to_be` on a little-endian host: swap the two
bytes of a 16-bit value (values `≥ 2^16` have their high bits dropped,
as the Rust `u16` type would). -/
def bswap16 (x : Nat) : Nat :=
  x % 256 * 256 + x / 256 % 256

/-- `u32::from_be` / `u32::to_be` on a little-endian host: reverse the
four bytes of a 32-bit value (values `≥ 2^32` have their high bits
dropped, as the Rust `u32` type would). -/
def bswap32 (x : Nat) : Nat :=
  x % 256 * 16777216 + x / 256 % 256 * 65536 + x / 65536 % 256 * 256 + x / 16777216 % 256

/-- `EthHdr::LEN` from `network_types`. -/
def EthHdrLEN : Nat := 14

/-- `Ipv4Hdr::LEN` from `network_types`. -/
def Ipv4HdrLEN : Nat := 20

/-- `TcpHdr::LEN` from `network_types`. -/
def TcpHdrLEN : Nat := 20

/-- `TC_ACT_OK`: the pass-through action code of the TC hook. -/
def TC_ACT_OK : Int := 0

/-- `BACKENDS_ARRAY_CAPACITY` from the `common` crate: the static
capacity of a `BackendList`'s backend array. -/
def BACKENDS_ARRAY_CAPACITY : Nat := 128

/-- `common::Backend`: one concrete endpoint (`daddr: u32`,
`dport: u32`, `ifindex: u16`). -/
structure Backend where
  daddr : Nat
  dport : Nat
  ifindex : Nat
  deriving DecidableEq, Repr

/-- `common::BackendKey`: the pre-NAT destination identifying the
virtual service (`ip: u32`, `port: u32`), in host order. -/
structure BackendKey where
  ip : Nat
  port : Nat
  deriving DecidableEq, Repr

/-- `common::ClientKey`: the flow key taken from the client side
(`ip: u32`, `port: u32`), in host order. -/
structure ClientKey where
  ip : Nat
  port : Nat
  deriving DecidableEq, Repr

/-- Modelled from the spec: `common::TCPState` is not under `src/`; §3
describes it as a small enumerated flow-lifecycle state whose default is
the fresh state. -/
inductive TCPState where
  | fresh
  | updated
  | closed
  deriving DecidableEq, Repr

instance : Inhabited TCPState := ⟨TCPState.fresh⟩

/-- `common::LoadBalancerMapping`: the ConnectionRecord stored per
ClientKey (chosen backend, original backend key, TCP tracking state). -/
structure LoadBalancerMapping where
  backend : Backend
  backend_key : BackendKey
  tcp_state : Option TCPState
  deriving DecidableEq, Repr

/-- `common::BackendList`: a bounded backend array plus its in-use
count. The Rust array `[Backend; BACKENDS_ARRAY_CAPACITY]` is modelled
as a list; `backends.get?` mirrors the slice `get` of the source. -/
structure BackendList where
  backends : List Backend
  backends_len : Nat
  deriving DecidableEq, Repr

/-- `network_types::ip::Ipv4Hdr`, as the code touches it: the first ten
bytes (version/ihl, tos, tot_len, id, frag_off, ttl, proto) are carried
as five opaque 16-bit words `w0..w4`; `check`, `src_addr` and `dst_addr`
hold the wire-order (big-endian) values as loaded on the host. -/
structure Ipv4Hdr where
  w0 : Nat
  w1 : Nat
  w2 : Nat
  w3 : Nat
  w4 : Nat
  check : Nat
  src_addr : Nat
  dst_addr : Nat
  deriving DecidableEq, Repr

/-- `network_types::tcp::TcpHdr`, as the code touches it: wire-order
`source`/`dest` ports, the checksum field `check`, the RST flag, and the
remaining header bytes as an opaque word. -/
structure TcpHdr where
  source : Nat
  dest : Nat
  check : Nat
  rst : Bool
  other : Nat
  deriving DecidableEq, Repr

/-- The frame reachable through the `TcContext`: its total length in
bytes (`data_end - data`), the link-layer header bytes, the parsed IPv4
and TCP headers, and the bytes past the TCP header. Header fields are
meaningful only when `len` admits them; the code's bounds checks consult
`len`. -/
structure Frame where
  len : Nat
  eth : List Nat
  ip : Ipv4Hdr
  tcp : TcpHdr
  payload : List Nat
  deriving DecidableEq, Repr

/-- Association-list lookup: the model of a per-key `get` on an eBPF
hash map. -/
def mget {α β : Type} [DecidableEq α] : List (α × β) → α → Option β
  | [], _ => none
  | (k, v) :: t, k' => if k' = k then some v else mget t k'

/-- Remove every binding of a key: part of the model of per-key
`insert`/`remove` on an eBPF hash map. -/
def mremove {α β : Type} [DecidableEq α] : List (α × β) → α → List (α × β)
  | [], _ => []
  | (k, v) :: t, k' => if k = k' then mremove t k' else (k, v) :: mremove t k'

/-- Insert-or-overwrite a binding: the model of a per-key `insert` on an
eBPF hash map. -/
def minsert {α β : Type} [DecidableEq α] (l : List (α × β)) (k : α) (v : β) :
    List (α × β) :=
  (k, v) :: mremove l k

/-- The three shared maps of the data path: `LB_CONNECTIONS` (the
Connection Table), `BACKENDS` (the Backend Registry) and
`GATEWAY_INDEXES` (the Round-Robin Cursor Store). -/
structure Maps where
  lb_connections : List (ClientKey × LoadBalancerMapping)
  backends : List (BackendKey × BackendList)
  gateway_indexes : List (BackendKey × Nat)
  deriving DecidableEq, Repr

/-- The environment of one invocation: the outcome of the
`bpf_redirect_neigh` helper per egress interface, whether each fallible
map operation succeeds, the error code a failed map operation returns,
and the TCP-state refresh hook of `update_tcp_conns` (§4.7: a lifecycle
hook for richer tracking, unspecified beyond refreshing the field). -/
structure Env where
  redirectNeigh : Nat → Int
  gwInsertOk : Bool
  lbInsertOk : Bool
  lbRemoveOk : Bool
  mapErr : Int
  refreshState : TcpHdr → Option TCPState → Option TCPState

instance : DecidableEq (Except Int Int) := fun x y =>
  match x, y with
  | Except.ok a, Except.ok b =>
      if h : a = b then isTrue (by rw [h]) else isFalse (by simp [h])
  | Except.error a, Except.error b =>
      if h : a = b then isTrue (by rw [h]) else isFalse (by simp [h])
  | Except.ok _, Except.error _ => isFalse (by simp)
  | Except.error _, Except.ok _ => isFalse (by simp)

/-- The observable result of one invocation: the returned
`Result<i32, i64>`, the frame as left in memory, and the shared maps as
left in memory. -/
structure Outcome where
  result : Except Int Int
  frame : Frame
  maps : Maps
  deriving DecidableEq, Repr

/-- Lines 35–38: the ClientKey derived from the frame
(`u32::from_be(src_addr)`, `u16::from_be(source) as u32`). -/
def clientKeyOf (f : Frame) : ClientKey :=
  { ip := bswap32 f.ip.src_addr, port := bswap16 f.tcp.source }

/-- Lines 57–60: the BackendKey derived from the frame's original
destination (`u32::from_be(dst_addr)`, `u16::from_be(dest) as u32`). -/
def backendKeyOf (f : Frame) : BackendKey :=
  { ip := bswap32 f.ip.dst_addr, port := bswap16 f.tcp.dest }

/-- One step of the fold loop in `csum_fold_helper`: add the carry above
bit 16 back into the low 16 bits when present. -/
def csumFoldStep (c : Nat) : Nat :=
  if c / 65536 ≠ 0 then c % 65536 + c / 65536 else c

/-- Modelled from the spec: `utils::csum_fold_helper` is not under
`src/`; §4.5 prescribes folding the accumulator's high-order bits back
into the low 16 bits iteratively and complementing the result (the fold
runs four times, enough for a 20-byte header sum). -/
def csum_fold_helper (c : Nat) : Nat :=
  65535 - csumFoldStep (csumFoldStep (csumFoldStep (csumFoldStep c))) % 65536

/-- The ten 16-bit words of the IPv4 header with the checksum field
taken as zero, as summed by the checksum computation (lines 121–130
zero `check` before summing). -/
def ipv4HeaderWords (h : Ipv4Hdr) : List Nat :=
  [h.w0, h.w1, h.w2, h.w3, h.w4, 0,
   h.src_addr % 65536, h.src_addr / 65536 % 65536,
   h.dst_addr % 65536, h.dst_addr / 65536 % 65536]

/-- Modelled from the spec: the `bpf_csum_diff` + `csum_fold_helper`
pipeline of lines 121–131; §4.5 prescribes the standard
one's-complement-sum-of-16-bit-words algorithm over the header with the
checksum field zeroed, folded and complemented. -/
def ipv4Checksum (h : Ipv4Hdr) : Nat :=
  csum_fold_helper ((ipv4HeaderWords h).foldl (· + ·) 0)

/-- Modelled from the spec: `utils::update_tcp_conns` is not under
`src/`. §4.7: a tracked packet carrying the reset signal leaves the flow
with no record (the caller has already deleted it); any other tracked
packet refreshes the stored `TCPState` field and persists the updated
record, and a persistence failure is fatal for this packet only. -/
def update_tcp_conns (env : Env) (hdr : TcpHdr) (client_key : ClientKey)
    (lb_mapping : LoadBalancerMapping) (m : Maps) : Except Int Maps :=
  if hdr.rst then
    Except.ok m
  else if env.lbInsertOk then
    Except.ok { m with lb_connections := (minsert m.lb_connections client_key
      { lb_mapping with tcp_state := env.refreshState hdr lb_mapping.tcp_state }) }
  else
    Except.error env.mapErr

/-- Lines 100–174 of `handle_tcp_ingress`: the tail of the handler once
the backend has been resolved (either from an existing ConnectionRecord
or by round-robin selection). DNATs the destination address and port,
recomputes the IPv4 checksum, zeroes the TCP checksum, resolves the
redirect action, and performs the Connection Table bookkeeping. -/
def finishPacket (env : Env) (m : Maps) (f : Frame) (client_key : ClientKey)
    (backend : Backend) (backend_key : BackendKey)
    (tcp_state : Option TCPState) (new_conn : Bool) : Outcome :=
  -- lines 107-112: DNAT the ip address and the port
  let ip1 := { f.ip with dst_addr := bswap32 backend.daddr }
  let tcp1 := { f.tcp with dest := bswap16 (backend.dport % 65536) }
  -- lines 114-117: re-check the IPv4 header bound (the verifier's
  -- revalidation; unreachable given the checks in the caller)
  if f.len < EthHdrLEN + Ipv4HdrLEN then
    { result := Except.ok TC_ACT_OK, frame := { f with ip := ip1, tcp := tcp1 }, maps := m }
  else
    -- lines 119-131: zero the check field, recompute the l3 checksum
    let ip3 := { ip1 with check := ipv4Checksum ip1 }
    -- line 133: the TCP checksum is set to zero
    let tcp2 := { tcp1 with check := 0 }
    let f2 := { f with ip := ip3, tcp := tcp2 }
    -- lines 135-142: resolve the redirect action
    let action := env.redirectNeigh backend.ifindex
    let lb_mapping : LoadBalancerMapping :=
      { backend := backend, backend_key := backend_key, tcp_state := tcp_state }
    if new_conn then
      -- lines 151-158: record the new connection and exit early
      if env.lbInsertOk then
        { result := Except.ok action, frame := f2,
          maps := { m with lb_connections := minsert m.lb_connections client_key lb_mapping } }
      else
        { result := Except.error env.mapErr, frame := f2, maps := m }
    else
      -- lines 161-169: on RST, remove the connection from the map
      if f.tcp.rst then
        if env.lbRemoveOk then
          let m1 := { m with lb_connections := mremove m.lb_connections client_key }
          match update_tcp_conns env tcp2 client_key lb_mapping m1 with
          | Except.ok m2 => { result := Except.ok action, frame := f2, maps := m2 }
          | Except.error e => { result := Except.error e, frame := f2, maps := m1 }
        else
          { result := Except.error env.mapErr, frame := f2, maps := m }
      else
        -- line 171: update the tracked connection state
        match update_tcp_conns env tcp2 client_key lb_mapping m with
        | Except.ok m2 => { result := Except.ok action, frame := f2, maps := m2 }
        | Except.error e => { result := Except.error e, frame := f2, maps := m }

/-- `handle_tcp_ingress` (lines 25–174). The two leading `ptr_at` view
constructions are modelled from the spec (§4.1: every view construction
validates `offset + header_length <= frame_length` and a violation fails
with `OutOfBounds`, surfacing as `Err(TC_ACT_OK)` to the caller, which
passes the frame through unmodified). -/
def handle_tcp_ingress (env : Env) (m : Maps) (f : Frame) : Outcome :=
  -- line 26: ptr_at for the Ipv4Hdr view at offset EthHdr::LEN
  if f.len < EthHdrLEN + Ipv4HdrLEN then
    { result := Except.error TC_ACT_OK, frame := f, maps := m }
  -- line 30: ptr_at for the TcpHdr view at offset EthHdr::LEN + Ipv4Hdr::LEN
  else if f.len < EthHdrLEN + Ipv4HdrLEN + TcpHdrLEN then
    { result := Except.error TC_ACT_OK, frame := f, maps := m }
  else
    -- lines 50-53: look up an existing connection
    match mget m.lb_connections (clientKeyOf f) with
    | some val =>
      finishPacket env m f (clientKeyOf f) val.backend val.backend_key val.tcp_state false
    | none =>
      -- lines 55-60: a new connection keyed by the original destination
      match mget m.backends (backendKeyOf f) with
      | none => { result := Except.error TC_ACT_OK, frame := f, maps := m }
      | some backend_list =>
        match mget m.gateway_indexes (backendKeyOf f) with
        | none => { result := Except.error TC_ACT_OK, frame := f, maps := m }
        | some backend_index =>
          -- lines 67-70: reject a stale index past the in-use count
          if backend_list.backends_len ≤ backend_index then
            { result := Except.ok TC_ACT_OK, frame := f, maps := m }
          -- lines 71-76: reject an index past the static capacity
          else if BACKENDS_ARRAY_CAPACITY ≤ backend_index then
            { result := Except.ok TC_ACT_OK, frame := f, maps := m }
          else
            -- lines 78-88: select the backend, falling back to index 0
            let backend :=
              match backend_list.backends.get? backend_index with
              | some v => v
              | none => (backend_list.backends.get? 0).getD
                  { daddr := 0, dport := 0, ifindex := 0 }
            -- lines 90-97: advance the cursor to the next backend
            let next0 := backend_index + 1
            let next := if backend_list.backends_len ≤ next0 then 0 else next0
            if env.gwInsertOk then
              finishPacket env
                { m with gateway_indexes := minsert m.gateway_indexes (backendKeyOf f) next }
                f (clientKeyOf f) backend (backendKeyOf f) (some TCPState.fresh) true
            else
              { result := Except.error env.mapErr, frame := f, maps := m }

/-- Sequential processing of a list of frames, threading the shared maps
(the "K sequential new connections, no interleaving" scenario of §8). -/
def runAll (env : Env) (m : Maps) : List Frame → Maps
  | [] => m
  | f :: fs => runAll env (handle_tcp_ingress env m f).maps fs

/-- The frame as left in memory after an error-free rewrite towards
backend `b`: destination address and port DNATed (lines 107–112), IPv4
checksum recomputed over the rewritten header (lines 119–131), TCP
checksum zeroed (line 133); every other byte untouched. -/
def rewrittenFrame (f : Frame) (b : Backend) : Frame :=
  let ip1 := { f.ip with dst_addr := bswap32 b.daddr }
  { f with
    ip := { ip1 with check := ipv4Checksum ip1 },
    tcp := { f.tcp with dest := bswap16 (b.dport % 65536), check := 0 } }

/-! ### Concrete fixtures used by the witness and counterexample theorems -/

/-- A concrete environment in which every map operation succeeds and the
redirect helper returns `100 + ifindex`. -/
def envW : Env :=
  { redirectNeigh := fun i => (100 : Int) + Int.ofNat i, gwInsertOk := true,
    lbInsertOk := true, lbRemoveOk := true, mapErr := -1,
    refreshState := fun _ s => s }

/-- A concrete environment in which the Connection Table insert fails
with error code `-7`. -/
def envF : Env :=
  { envW with lbInsertOk := false, mapErr := -7 }

/-- Concrete backend 0 of the fixture service. -/
def bW0 : Backend := { daddr := 167772421, dport := 8080, ifindex := 3 }

/-- Concrete backend 1 of the fixture service. -/
def bW1 : Backend := { daddr := 167772422, dport := 8080, ifindex := 4 }

/-- The fixture service: virtual address 10.0.0.1:80 (host order). -/
def svcW : BackendKey := { ip := 167772161, port := 80 }

/-- The fixture backend list: two backends in use. -/
def blW : BackendList := { backends := [bW0, bW1], backends_len := 2 }

/-- A well-formed 54-byte TCP frame from client `(cip, cport)` to the
fixture service, with a nonzero TCP checksum and the RST flag clear. -/
def frameW (cip cport : Nat) : Frame :=
  { len := 54, eth := List.replicate 14 0,
    ip := { w0 := 17664, w1 := 40, w2 := 7, w3 := 16384, w4 := 16390,
            check := 48879, src_addr := bswap32 cip, dst_addr := bswap32 svcW.ip },
    tcp := { source := bswap16 cport, dest := bswap16 svcW.port,
             check := 4660, rst := false, other := 5 },
    payload := [] }

/-- Fixture maps: empty Connection Table, the fixture service registered
with cursor 0. -/
def mW : Maps :=
  { lb_connections := [], backends := [(svcW, blW)], gateway_indexes := [(svcW, 0)] }

/-- Fixture maps with nothing registered at all. -/
def mEmpty : Maps :=
  { lb_connections := [], backends := [], gateway_indexes := [] }

/-- Fixture maps with a stale cursor (2 ≥ backends_len). -/
def mStale : Maps := { mW with gateway_indexes := [(svcW, 2)] }

/-- Fixture maps with the service registered but no cursor entry. -/
def mNoCursor : Maps := { mW with gateway_indexes := [] }

/-- Fixture maps with a tracked connection for client `(9, 9999)`
pinned to backend `bW1`. -/
def mTracked : Maps :=
  { mW with lb_connections :=
      [({ ip := 9, port := 9999 },
        { backend := bW1, backend_key := svcW, tcp_state := some TCPState.fresh })] }

/-- The tracked fixture client's frame. -/
def fTracked : Frame := frameW 9 9999

/-- The tracked fixture client's frame with the RST flag set. -/
def fTrackedRst : Frame :=
  { fTracked with tcp := { fTracked.tcp with rst := true } }

/-! ### Association-list map lemmas -/

theorem mget_mremove_ne {α β : Type} [DecidableEq α] (l : List (α × β)) (k k' : α)
    (h : k' ≠ k) : mget (mremove l k) k' = mget l k' := by
  induction l with
  | nil => rfl
  | cons p t ih =>
    obtain ⟨a, b⟩ := p
    by_cases hak : a = k
    · subst hak
      simp [mremove, mget, ih, if_neg h, h]
    · by_cases hka : k' = a
      · simp [mremove, mget, hak, hka]
      · simp [mremove, mget, hak, hka, ih]

theorem mget_mremove_self {α β : Type} [DecidableEq α] (l : List (α × β)) (k : α) :
    mget (mremove l k) k = none := by
  induction l with
  | nil => rfl
  | cons p t ih =>
    obtain ⟨a, b⟩ := p
    by_cases hak : a = k
    · simp [mremove, hak, ih]
    · simp [mremove, mget, hak, ih, Ne.symm hak]

theorem mget_minsert_self {α β : Type} [DecidableEq α] (l : List (α × β)) (k : α)
    (v : β) : mget (minsert l k v) k = some v := by
  simp [minsert, mget]

theorem mget_minsert_ne {α β : Type} [DecidableEq α] (l : List (α × β)) (k k' : α)
    (v : β) (h : k' ≠ k) : mget (minsert l k v) k' = mget l k' := by
  simp only [minsert, mget, if_neg h]
  exact mget_mremove_ne l k k' h

/-! ### Arithmetic helpers -/

theorem next_eq_mod (i n : Nat) (h : i < n) :
    (if n ≤ i + 1 then 0 else i + 1) = (i + 1) % n := by
  by_cases h2 : n ≤ i + 1
  · have hin : i + 1 = n := by omega
    rw [if_pos h2, hin, Nat.mod_self]
  · rw [if_neg h2, Nat.mod_eq_of_lt (by omega)]

/-! ### Reduction lemmas for the handler's control-flow paths -/

theorem finishPacket_frame (env : Env) (m : Maps) (f : Frame) (ck : ClientKey)
    (b : Backend) (bk : BackendKey) (ts : Option TCPState) (nc : Bool)
    (h34 : ¬ f.len < EthHdrLEN + Ipv4HdrLEN) :
    (finishPacket env m f ck b bk ts nc).frame = rewrittenFrame f b := by
  unfold finishPacket
  rw [if_neg h34]
  dsimp only
  repeat' split
  all_goals rfl

theorem finishPacket_new_eq (env : Env) (m : Maps) (f : Frame) (ck : ClientKey)
    (b : Backend) (bk : BackendKey)
    (h34 : ¬ f.len < EthHdrLEN + Ipv4HdrLEN) (hlb : env.lbInsertOk = true) :
    finishPacket env m f ck b bk (some TCPState.fresh) true =
      { result := Except.ok (env.redirectNeigh b.ifindex),
        frame := rewrittenFrame f b,
        maps := { m with lb_connections := (minsert m.lb_connections ck
          { backend := b, backend_key := bk, tcp_state := some TCPState.fresh }) } } := by
  simp [finishPacket, rewrittenFrame, if_neg h34, hlb]

theorem finishPacket_new_fail_eq (env : Env) (m : Maps) (f : Frame) (ck : ClientKey)
    (b : Backend) (bk : BackendKey)
    (h34 : ¬ f.len < EthHdrLEN + Ipv4HdrLEN) (hlb : env.lbInsertOk = false) :
    finishPacket env m f ck b bk (some TCPState.fresh) true =
      { result := Except.error env.mapErr, frame := rewrittenFrame f b, maps := m } := by
  simp [finishPacket, rewrittenFrame, if_neg h34, hlb]

theorem finishPacket_rst_eq (env : Env) (m : Maps) (f : Frame) (ck : ClientKey)
    (b : Backend) (bk : BackendKey) (ts : Option TCPState)
    (h34 : ¬ f.len < EthHdrLEN + Ipv4HdrLEN) (hrst : f.tcp.rst = true)
    (hrm : env.lbRemoveOk = true) :
    finishPacket env m f ck b bk ts false =
      { result := Except.ok (env.redirectNeigh b.ifindex),
        frame := rewrittenFrame f b,
        maps := { m with lb_connections := mremove m.lb_connections ck } } := by
  simp [finishPacket, rewrittenFrame, update_tcp_conns, if_neg h34, hrst, hrm]

theorem handle_tracked_eq (env : Env) (m : Maps) (f : Frame)
    (rec : LoadBalancerMapping)
    (hlen : EthHdrLEN + Ipv4HdrLEN + TcpHdrLEN ≤ f.len)
    (hrec : mget m.lb_connections (clientKeyOf f) = some rec) :
    handle_tcp_ingress env m f =
      finishPacket env m f (clientKeyOf f) rec.backend rec.backend_key
        rec.tcp_state false := by
  have h1 : ¬ f.len < EthHdrLEN + Ipv4HdrLEN :=
    Nat.not_lt.mpr (le_trans (Nat.le_add_right _ _) hlen)
  have h2 : ¬ f.len < EthHdrLEN + Ipv4HdrLEN + TcpHdrLEN := Nat.not_lt.mpr hlen
  simp only [handle_tcp_ingress, if_neg h1, if_neg h2, hrec]

theorem handle_new_eq (env : Env) (m : Maps) (f : Frame) (bl : BackendList)
    (idx : Nat) (b : Backend)
    (hlen : EthHdrLEN + Ipv4HdrLEN + TcpHdrLEN ≤ f.len)
    (hno : mget m.lb_connections (clientKeyOf f) = none)
    (hreg : mget m.backends (backendKeyOf f) = some bl)
    (hcur : mget m.gateway_indexes (backendKeyOf f) = some idx)
    (hidx : idx < bl.backends_len) (hcap : idx < BACKENDS_ARRAY_CAPACITY)
    (hget : bl.backends.get? idx = some b)
    (hgw : env.gwInsertOk = true) :
    handle_tcp_ingress env m f =
      finishPacket env
        { m with gateway_indexes := (minsert m.gateway_indexes (backendKeyOf f)
            ((idx + 1) % bl.backends_len)) }
        f (clientKeyOf f) b (backendKeyOf f) (some TCPState.fresh) true := by
  have h1 : ¬ f.len < EthHdrLEN + Ipv4HdrLEN :=
    Nat.not_lt.mpr (le_trans (Nat.le_add_right _ _) hlen)
  have h2 : ¬ f.len < EthHdrLEN + Ipv4HdrLEN + TcpHdrLEN := Nat.not_lt.mpr hlen
  have h3 : ¬ bl.backends_len ≤ idx := Nat.not_le.mpr hidx
  have h4 : ¬ BACKENDS_ARRAY_CAPACITY ≤ idx := Nat.not_le.mpr hcap
  simp only [handle_tcp_ingress, if_neg h1, if_neg h2, hno, hreg, hcur,
    if_neg h3, if_neg h4, hget, hgw, if_true, next_eq_mod idx bl.backends_len hidx]

/-! ### The claims -/

/-- C7: for every frame whose length is smaller than the combined
Ethernet + IPv4 + TCP header length, the invocation fails with the
OutOfBounds rejection of the view construction, resolves to the
pass-through action `TC_ACT_OK`, and leaves every byte of the frame and
both shared stores (Connection Table, cursor store) unchanged. -/
theorem short_frame_fail_open (env : Env) (m : Maps) (f : Frame)
    (h : f.len < EthHdrLEN + Ipv4HdrLEN + TcpHdrLEN) :
    handle_tcp_ingress env m f =
      { result := Except.error TC_ACT_OK, frame := f, maps := m } := by
  by_cases h0 : f.len < EthHdrLEN + Ipv4HdrLEN
  · simp only [handle_tcp_ingress, if_pos h0]
  · simp only [handle_tcp_ingress, if_neg h0, if_pos h]

/-- Witness for C7 at a concrete 53-byte frame. -/
theorem short_frame_fail_open_witness :
    handle_tcp_ingress envW mW { frameW 1 1000 with len := 53 } =
      { result := Except.error TC_ACT_OK,
        frame := { frameW 1 1000 with len := 53 }, maps := mW } :=
  short_frame_fail_open envW mW { frameW 1 1000 with len := 53 } (by decide)

/-- C6: every packet with no existing ConnectionRecord whose BackendKey
is absent from the Backend Registry resolves to the pass-through action
(`TC_ACT_OK`, never a drop), with the frame byte-for-byte unmodified and
no entry written to the Connection Table or the cursor store. -/
theorem registry_miss_fail_open (env : Env) (m : Maps) (f : Frame)
    (hlen : EthHdrLEN + Ipv4HdrLEN + TcpHdrLEN ≤ f.len)
    (hno : mget m.lb_connections (clientKeyOf f) = none)
    (hreg : mget m.backends (backendKeyOf f) = none) :
    handle_tcp_ingress env m f =
      { result := Except.error TC_ACT_OK, frame := f, maps := m } := by
  have h1 : ¬ f.len < EthHdrLEN + Ipv4HdrLEN :=
    Nat.not_lt.mpr (le_trans (Nat.le_add_right _ _) hlen)
  have h2 : ¬ f.len < EthHdrLEN + Ipv4HdrLEN + TcpHdrLEN := Nat.not_lt.mpr hlen
  simp only [handle_tcp_ingress, if_neg h1, if_neg h2, hno, hreg]

/-- Witness for C6 with empty maps. -/
theorem registry_miss_fail_open_witness :
    handle_tcp_ingress envW mEmpty (frameW 1 1000) =
      { result := Except.error TC_ACT_OK, frame := frameW 1 1000, maps := mEmpty } :=
  registry_miss_fail_open envW mEmpty (frameW 1 1000) (by decide) (by decide) (by decide)

/-- C5: for a new connection, a cursor read that is `≥` the backend
list's count or `≥` the static array capacity makes the invocation
return the pass-through action `Ok(TC_ACT_OK)` with no mutation: the
frame is unchanged, no ConnectionRecord is created, and the cursor store
is not advanced or otherwise written. -/
theorem invalid_index_fail_open (env : Env) (m : Maps) (f : Frame)
    (bl : BackendList) (idx : Nat)
    (hlen : EthHdrLEN + Ipv4HdrLEN + TcpHdrLEN ≤ f.len)
    (hno : mget m.lb_connections (clientKeyOf f) = none)
    (hreg : mget m.backends (backendKeyOf f) = some bl)
    (hcur : mget m.gateway_indexes (backendKeyOf f) = some idx)
    (hbad : bl.backends_len ≤ idx ∨ BACKENDS_ARRAY_CAPACITY ≤ idx) :
    handle_tcp_ingress env m f =
      { result := Except.ok TC_ACT_OK, frame := f, maps := m } := by
  have h1 : ¬ f.len < EthHdrLEN + Ipv4HdrLEN :=
    Nat.not_lt.mpr (le_trans (Nat.le_add_right _ _) hlen)
  have h2 : ¬ f.len < EthHdrLEN + Ipv4HdrLEN + TcpHdrLEN := Nat.not_lt.mpr hlen
  by_cases hA : bl.backends_len ≤ idx
  · simp only [handle_tcp_ingress, if_neg h1, if_neg h2, hno, hreg, hcur, if_pos hA]
  · have hB : BACKENDS_ARRAY_CAPACITY ≤ idx := hbad.resolve_left hA
    simp only [handle_tcp_ingress, if_neg h1, if_neg h2, hno, hreg, hcur,
      if_neg hA, if_pos hB]

/-- Witness for C5: fixture service with 2 backends and stale cursor 2. -/
theorem invalid_index_fail_open_witness :
    handle_tcp_ingress envW mStale (frameW 1 1000) =
      { result := Except.ok TC_ACT_OK, frame := frameW 1 1000, maps := mStale } :=
  invalid_index_fail_open envW mStale (frameW 1 1000) blW 2
    (by decide) (by decide) (by decide) (by decide) (Or.inl (by decide))

/-- C4 counterexample: with the fixture service present in the Backend
Registry but no entry in the cursor store, the invocation rejects the
packet with the pass-through error `Err(TC_ACT_OK)` and writes nothing
— selection does not proceed with index 0 as the claim states. -/
theorem cursor_absent_counterexample :
    mget mNoCursor.backends (backendKeyOf (frameW 1 1000)) = some blW ∧
    mget mNoCursor.gateway_indexes (backendKeyOf (frameW 1 1000)) = none ∧
    mget mNoCursor.lb_connections (clientKeyOf (frameW 1 1000)) = none ∧
    handle_tcp_ingress envW mNoCursor (frameW 1 1000) =
      { result := Except.error TC_ACT_OK, frame := frameW 1 1000, maps := mNoCursor } := by
  decide

/-- C4 (amended): for a new connection whose BackendKey is present in
the Backend Registry but has no entry in the Round-Robin Cursor Store,
the packet is rejected with the fail-open pass-through error
`Err(TC_ACT_OK)`: no backend is selected and neither the frame nor any
shared store is modified. -/
theorem cursor_absent_rejects (env : Env) (m : Maps) (f : Frame) (bl : BackendList)
    (hlen : EthHdrLEN + Ipv4HdrLEN + TcpHdrLEN ≤ f.len)
    (hno : mget m.lb_connections (clientKeyOf f) = none)
    (hreg : mget m.backends (backendKeyOf f) = some bl)
    (hcur : mget m.gateway_indexes (backendKeyOf f) = none) :
    handle_tcp_ingress env m f =
      { result := Except.error TC_ACT_OK, frame := f, maps := m } := by
  have h1 : ¬ f.len < EthHdrLEN + Ipv4HdrLEN :=
    Nat.not_lt.mpr (le_trans (Nat.le_add_right _ _) hlen)
  have h2 : ¬ f.len < EthHdrLEN + Ipv4HdrLEN + TcpHdrLEN := Nat.not_lt.mpr hlen
  simp only [handle_tcp_ingress, if_neg h1, if_neg h2, hno, hreg, hcur]

/-- Witness for the amended C4. -/
theorem cursor_absent_rejects_witness :
    handle_tcp_ingress envW mNoCursor (frameW 1 1000) =
      { result := Except.error TC_ACT_OK, frame := frameW 1 1000, maps := mNoCursor } :=
  cursor_absent_rejects envW mNoCursor (frameW 1 1000) blW
    (by decide) (by decide) (by decide) (by decide)

/-- C3 counterexample: a tracked packet whose arriving TCP checksum is
4660 leaves the invocation with its destination rewritten and the TCP
checksum field equal to 0, not to the arriving value — the field is
modified, contradicting the claim that it is left untouched. -/
theorem tcp_checksum_counterexample :
    (handle_tcp_ingress envW mTracked fTracked).frame.ip.dst_addr ≠ fTracked.ip.dst_addr ∧
    fTracked.tcp.check = 4660 ∧
    (handle_tcp_ingress envW mTracked fTracked).frame.tcp.check ≠ fTracked.tcp.check := by
  decide

/-- C3 (amended): after the destination rewrite of a load-balanced
packet the TCP checksum is not recomputed, but neither does it keep its
arriving value: line 133 overwrites it with zero. Every invocation
either leaves the frame wholly unchanged or leaves the TCP checksum
field equal to 0. -/
theorem tcp_checksum_zeroed (env : Env) (m : Maps) (f : Frame) :
    (handle_tcp_ingress env m f).frame = f ∨
    (handle_tcp_ingress env m f).frame.tcp.check = 0 := by
  unfold handle_tcp_ingress
  split
  · exact Or.inl rfl
  next h1 =>
    split
    · exact Or.inl rfl
    next h2 =>
      split
      · exact Or.inr (by rw [finishPacket_frame env m f _ _ _ _ _ h1]; rfl)
      · split
        · exact Or.inl rfl
        · split
          · exact Or.inl rfl
          · dsimp only
            split
            · exact Or.inl rfl
            · split
              · exact Or.inl rfl
              · split
                · exact Or.inr (by rw [finishPacket_frame _ _ _ _ _ _ _ _ h1]; rfl)
                · exact Or.inl rfl

/-- C1: for every packet whose ClientKey already has a ConnectionRecord
in the Connection Table, the backend used to rewrite the packet's
destination address and port is the backend stored in that record —
whatever the cursor store and the Backend Registry currently hold. -/
theorem stickiness (env : Env) (m : Maps) (f : Frame) (rec : LoadBalancerMapping)
    (hlen : EthHdrLEN + Ipv4HdrLEN + TcpHdrLEN ≤ f.len)
    (hrec : mget m.lb_connections (clientKeyOf f) = some rec) :
    (handle_tcp_ingress env m f).frame.ip.dst_addr = bswap32 rec.backend.daddr ∧
    (handle_tcp_ingress env m f).frame.tcp.dest = bswap16 (rec.backend.dport % 65536) := by
  rw [handle_tracked_eq env m f rec hlen hrec,
    finishPacket_frame env m f _ _ _ _ _
      (Nat.not_lt.mpr (le_trans (Nat.le_add_right _ _) hlen))]
  exact ⟨rfl, rfl⟩

/-- Witness for C1: the tracked fixture client is pinned to `bW1` even
though the cursor points at `bW0`. -/
theorem stickiness_witness :
    (handle_tcp_ingress envW mTracked fTracked).frame.ip.dst_addr = bswap32 bW1.daddr ∧
    (handle_tcp_ingress envW mTracked fTracked).frame.tcp.dest =
      bswap16 (bW1.dport % 65536) :=
  stickiness envW mTracked fTracked
    { backend := bW1, backend_key := svcW, tcp_state := some TCPState.fresh }
    (by decide) (by decide)

/-- C8: a packet of a tracked flow that carries the TCP reset signal
removes the flow's ConnectionRecord, so that after the invocation no
record exists for that ClientKey (and a following packet with the same
client tuple takes the new-connection path). -/
theorem reset_removes_record (env : Env) (m : Maps) (f : Frame)
    (rec : LoadBalancerMapping)
    (hlen : EthHdrLEN + Ipv4HdrLEN + TcpHdrLEN ≤ f.len)
    (hrec : mget m.lb_connections (clientKeyOf f) = some rec)
    (hrst : f.tcp.rst = true) (hrm : env.lbRemoveOk = true) :
    mget (handle_tcp_ingress env m f).maps.lb_connections (clientKeyOf f) = none := by
  rw [handle_tracked_eq env m f rec hlen hrec,
    finishPacket_rst_eq env m f _ _ _ _
      (Nat.not_lt.mpr (le_trans (Nat.le_add_right _ _) hlen)) hrst hrm]
  exact mget_mremove_self _ _

/-- Witness for C8: an RST from the tracked fixture client erases its
record. -/
theorem reset_removes_record_witness :
    mget (handle_tcp_ingress envW mTracked fTrackedRst).maps.lb_connections
      (clientKeyOf fTrackedRst) = none :=
  reset_removes_record envW mTracked fTrackedRst
    { backend := bW1, backend_key := svcW, tcp_state := some TCPState.fresh }
    (by decide) (by decide) (by decide) (by decide)

/-- C9: the first packet of a flow that hits the registry with a valid
cursor, in an error-free invocation, creates a ConnectionRecord keyed by
the client tuple whose backend is the one selected by the cursor value
read during the invocation, whose backend_key is the packet's original
pre-NAT destination, and whose TCP state is the fresh default. -/
theorem record_creation (env : Env) (m : Maps) (f : Frame) (bl : BackendList)
    (idx : Nat) (b : Backend)
    (hlen : EthHdrLEN + Ipv4HdrLEN + TcpHdrLEN ≤ f.len)
    (hno : mget m.lb_connections (clientKeyOf f) = none)
    (hreg : mget m.backends (backendKeyOf f) = some bl)
    (hcur : mget m.gateway_indexes (backendKeyOf f) = some idx)
    (hidx : idx < bl.backends_len) (hcap : idx < BACKENDS_ARRAY_CAPACITY)
    (hget : bl.backends.get? idx = some b)
    (hgw : env.gwInsertOk = true) (hlb : env.lbInsertOk = true) :
    (handle_tcp_ingress env m f).result = Except.ok (env.redirectNeigh b.ifindex) ∧
    mget (handle_tcp_ingress env m f).maps.lb_connections (clientKeyOf f) =
      some { backend := b, backend_key := backendKeyOf f,
             tcp_state := some TCPState.fresh } := by
  rw [handle_new_eq env m f bl idx b hlen hno hreg hcur hidx hcap hget hgw,
    finishPacket_new_eq _ _ _ _ _ _
      (Nat.not_lt.mpr (le_trans (Nat.le_add_right _ _) hlen)) hlb]
  exact ⟨rfl, mget_minsert_self _ _ _⟩

/-- Witness for C9: client (1,1000)'s first packet creates a record
pinned to `bW0` (cursor 0). -/
theorem record_creation_witness :
    (handle_tcp_ingress envW mW (frameW 1 1000)).result =
      Except.ok (envW.redirectNeigh bW0.ifindex) ∧
    mget (handle_tcp_ingress envW mW (frameW 1 1000)).maps.lb_connections
      (clientKeyOf (frameW 1 1000)) =
      some { backend := bW0, backend_key := backendKeyOf (frameW 1 1000),
             tcp_state := some TCPState.fresh } :=
  record_creation envW mW (frameW 1 1000) blW 0 bW0
    (by decide) (by decide) (by decide) (by decide) (by decide) (by decide)
    (by decide) (by decide) (by decide)

/-- C10: when inserting the new ConnectionRecord fails, the invocation
resolves to an error, but by then the frame's destination address and
port have been rewritten to the chosen backend, the IPv4 checksum has
been recomputed over the rewritten header, and the round-robin cursor
has been advanced; none of these effects is undone (and the Connection
Table itself is left as it was). -/
theorem no_rollback_on_insert_failure (env : Env) (m : Maps) (f : Frame)
    (bl : BackendList) (idx : Nat) (b : Backend)
    (hlen : EthHdrLEN + Ipv4HdrLEN + TcpHdrLEN ≤ f.len)
    (hno : mget m.lb_connections (clientKeyOf f) = none)
    (hreg : mget m.backends (backendKeyOf f) = some bl)
    (hcur : mget m.gateway_indexes (backendKeyOf f) = some idx)
    (hidx : idx < bl.backends_len) (hcap : idx < BACKENDS_ARRAY_CAPACITY)
    (hget : bl.backends.get? idx = some b)
    (hgw : env.gwInsertOk = true) (hlb : env.lbInsertOk = false) :
    (handle_tcp_ingress env m f).result = Except.error env.mapErr ∧
    (handle_tcp_ingress env m f).frame.ip.dst_addr = bswap32 b.daddr ∧
    (handle_tcp_ingress env m f).frame.tcp.dest = bswap16 (b.dport % 65536) ∧
    (handle_tcp_ingress env m f).frame.ip.check =
      ipv4Checksum (handle_tcp_ingress env m f).frame.ip ∧
    mget (handle_tcp_ingress env m f).maps.gateway_indexes (backendKeyOf f) =
      some ((idx + 1) % bl.backends_len) ∧
    (handle_tcp_ingress env m f).maps.lb_connections = m.lb_connections := by
  rw [handle_new_eq env m f bl idx b hlen hno hreg hcur hidx hcap hget hgw,
    finishPacket_new_fail_eq _ _ _ _ _ _
      (Nat.not_lt.mpr (le_trans (Nat.le_add_right _ _) hlen)) hlb]
  exact ⟨rfl, rfl, rfl, rfl, mget_minsert_self _ _ _, rfl⟩

/-- Witness for C10: with the Connection Table insert failing (error
code −7), the frame is still rewritten to `bW0` and the cursor still
advances to 1. -/
theorem no_rollback_on_insert_failure_witness :
    (handle_tcp_ingress envF mW (frameW 1 1000)).result = Except.error envF.mapErr ∧
    (handle_tcp_ingress envF mW (frameW 1 1000)).frame.ip.dst_addr = bswap32 bW0.daddr ∧
    (handle_tcp_ingress envF mW (frameW 1 1000)).frame.tcp.dest =
      bswap16 (bW0.dport % 65536) ∧
    (handle_tcp_ingress envF mW (frameW 1 1000)).frame.ip.check =
      ipv4Checksum (handle_tcp_ingress envF mW (frameW 1 1000)).frame.ip ∧
    mget (handle_tcp_ingress envF mW (frameW 1 1000)).maps.gateway_indexes
      (backendKeyOf (frameW 1 1000)) = some ((0 + 1) % blW.backends_len) ∧
    (handle_tcp_ingress envF mW (frameW 1 1000)).maps.lb_connections =
      mW.lb_connections :=
  no_rollback_on_insert_failure envF mW (frameW 1 1000) blW 0 bW0
    (by decide) (by decide) (by decide) (by decide) (by decide) (by decide)
    (by decide) (by decide) (by decide)

/-- Helper for C2: one new connection processed at cursor `j` installs a
record at `backends[j]` for the frame's client, advances the cursor to
`(j + 1) mod backends_len`, and leaves the registry untouched. -/
theorem rr_step (env : Env) (m : Maps) (f : Frame) (bl : BackendList) (j : Nat)
    (hgw : env.gwInsertOk = true) (hlb : env.lbInsertOk = true)
    (hreg : mget m.backends (backendKeyOf f) = some bl)
    (hcur : mget m.gateway_indexes (backendKeyOf f) = some j)
    (hj : j < bl.backends_len)
    (hcap : bl.backends_len ≤ BACKENDS_ARRAY_CAPACITY)
    (hfull : bl.backends_len ≤ bl.backends.length)
    (hlen : EthHdrLEN + Ipv4HdrLEN + TcpHdrLEN ≤ f.len)
    (hno : mget m.lb_connections (clientKeyOf f) = none) :
    (handle_tcp_ingress env m f).maps =
      { lb_connections := (minsert m.lb_connections (clientKeyOf f)
          { backend := bl.backends.getD j { daddr := 0, dport := 0, ifindex := 0 },
            backend_key := backendKeyOf f, tcp_state := some TCPState.fresh }),
        backends := m.backends,
        gateway_indexes := (minsert m.gateway_indexes (backendKeyOf f)
          ((j + 1) % bl.backends_len)) } := by
  have hjlen : j < bl.backends.length := lt_of_lt_of_le hj hfull
  have hget : bl.backends.get? j = some (bl.backends.get ⟨j, hjlen⟩) :=
    List.get?_eq_get hjlen
  have hgetD : bl.backends.getD j { daddr := 0, dport := 0, ifindex := 0 } =
      bl.backends.get ⟨j, hjlen⟩ := by
    rw [List.getD_eq_getElem?_getD, List.getElem?_eq_getElem hjlen]
    rfl
  rw [handle_new_eq env m f bl j _ hlen hno hreg hcur hj
      (lt_of_lt_of_le hj hcap) hget hgw,
    finishPacket_new_eq _ _ _ _ _ _
      (Nat.not_lt.mpr (le_trans (Nat.le_add_right _ _) hlen)) hlb,
    hgetD]

/-- Helper for C2: the invariant-carrying induction over the sequence
of new-connection frames. -/
theorem rr_aux (env : Env) (svc : BackendKey) (bl : BackendList)
    (hgw : env.gwInsertOk = true) (hlb : env.lbInsertOk = true)
    (hN : 0 < bl.backends_len)
    (hcap : bl.backends_len ≤ BACKENDS_ARRAY_CAPACITY)
    (hfull : bl.backends_len ≤ bl.backends.length) :
    ∀ (fs : List Frame) (m : Maps) (c : Nat),
      mget m.backends svc = some bl →
      mget m.gateway_indexes svc = some c →
      c < bl.backends_len →
      (∀ f ∈ fs, EthHdrLEN + Ipv4HdrLEN + TcpHdrLEN ≤ f.len ∧ backendKeyOf f = svc) →
      (∀ f ∈ fs, mget m.lb_connections (clientKeyOf f) = none) →
      (fs.map clientKeyOf).Nodup →
      (∀ k, k ≤ fs.length →
        mget (runAll env m (fs.take k)).gateway_indexes svc =
          some ((c + k) % bl.backends_len)) ∧
      (∀ k, (hk : k < fs.length) →
        mget (runAll env m (fs.take (k + 1))).lb_connections
            (clientKeyOf (fs.get ⟨k, hk⟩)) =
          some { backend := (bl.backends.getD ((c + k) % bl.backends_len)
                   { daddr := 0, dport := 0, ifindex := 0 }),
                 backend_key := svc, tcp_state := some TCPState.fresh }) := by
  intro fs
  induction fs with
  | nil =>
    intro m c hreg hcur hc _ _ _
    constructor
    · intro k hk
      have hk0 : k = 0 := Nat.le_zero.mp hk
      subst hk0
      simpa [runAll, Nat.mod_eq_of_lt hc] using hcur
    · intro k hk
      exact absurd hk (by simp)
  | cons f fs ih =>
    intro m c hreg hcur hc hwf hnew hdist
    have hwff := hwf f (List.mem_cons_self f fs)
    have hnof := hnew f (List.mem_cons_self f fs)
    have hbk : backendKeyOf f = svc := hwff.2
    have hstep := rr_step env m f bl c hgw hlb (by rw [hbk]; exact hreg)
      (by rw [hbk]; exact hcur) hc hcap hfull hwff.1 hnof
    rw [hbk] at hstep
    rw [List.map_cons] at hdist
    have hnotin := (List.nodup_cons.mp hdist).1
    have hdist' := (List.nodup_cons.mp hdist).2
    have hreg1 : mget (handle_tcp_ingress env m f).maps.backends svc = some bl := by
      rw [hstep]
      exact hreg
    have hcur1 : mget (handle_tcp_ingress env m f).maps.gateway_indexes svc =
        some ((c + 1) % bl.backends_len) := by
      rw [hstep]
      exact mget_minsert_self _ _ _
    have hc1 : (c + 1) % bl.backends_len < bl.backends_len := Nat.mod_lt _ hN
    have hwf1 : ∀ g ∈ fs,
        EthHdrLEN + Ipv4HdrLEN + TcpHdrLEN ≤ g.len ∧ backendKeyOf g = svc :=
      fun g hg => hwf g (List.mem_cons_of_mem f hg)
    have hnew1 : ∀ g ∈ fs,
        mget (handle_tcp_ingress env m f).maps.lb_connections (clientKeyOf g) = none := by
      intro g hg
      have hne : clientKeyOf g ≠ clientKeyOf f := by
        intro hh
        exact hnotin (hh ▸ List.mem_map_of_mem clientKeyOf hg)
      rw [hstep]
      calc mget (minsert m.lb_connections (clientKeyOf f) _) (clientKeyOf g)
          = mget m.lb_connections (clientKeyOf g) := mget_minsert_ne _ _ _ _ hne
        _ = none := hnew g (List.mem_cons_of_mem f hg)
    obtain ⟨ihA, ihB⟩ := ih (handle_tcp_ingress env m f).maps
      ((c + 1) % bl.backends_len) hreg1 hcur1 hc1 hwf1 hnew1 hdist'
    constructor
    · intro k hk
      cases k with
      | zero =>
        simpa [runAll, Nat.mod_eq_of_lt hc] using hcur
      | succ k =>
        have hk' : k ≤ fs.length := by simpa using hk
        have hidxeq : ((c + 1) % bl.backends_len + k) % bl.backends_len =
            (c + (k + 1)) % bl.backends_len := by
          rw [Nat.mod_add_mod]
          congr 1
          omega
        have := ihA k hk'
        rw [hidxeq] at this
        exact this
    · intro k hk
      cases k with
      | zero =>
        show mget (handle_tcp_ingress env m f).maps.lb_connections
            (clientKeyOf f) = _
        rw [hstep,
          show (c + 0) % bl.backends_len = c from by
            rw [Nat.add_zero, Nat.mod_eq_of_lt hc]]
        exact mget_minsert_self _ _ _
      | succ k =>
        have hk' : k < fs.length := by simpa using hk
        have hidxeq : ((c + 1) % bl.backends_len + k) % bl.backends_len =
            (c + (k + 1)) % bl.backends_len := by
          rw [Nat.mod_add_mod]
          congr 1
          omega
        have hKb := ihB k hk'
        rw [hidxeq] at hKb
        exact hKb

/-- C2: for one service with `N` backends (`0 < N ≤` static capacity)
and initial cursor `c < N`, processing `K` sequential new connections
(distinct ClientKeys, none tracked, no interleaving from other flows)
stores, for the `k`-th connection, a record whose backend sits at index
`(c + k) mod N` of the backend list, and after each selection the
stored cursor equals the next value `(c + k + 1) mod N` of that
sequence. -/
theorem round_robin_sequence (env : Env) (m : Maps) (svc : BackendKey)
    (bl : BackendList) (c : Nat) (fs : List Frame)
    (hgw : env.gwInsertOk = true) (hlb : env.lbInsertOk = true)
    (hN : 0 < bl.backends_len)
    (hcap : bl.backends_len ≤ BACKENDS_ARRAY_CAPACITY)
    (hfull : bl.backends_len ≤ bl.backends.length)
    (hreg : mget m.backends svc = some bl)
    (hcur : mget m.gateway_indexes svc = some c)
    (hc : c < bl.backends_len)
    (hwf : ∀ f ∈ fs, EthHdrLEN + Ipv4HdrLEN + TcpHdrLEN ≤ f.len ∧ backendKeyOf f = svc)
    (hnew : ∀ f ∈ fs, mget m.lb_connections (clientKeyOf f) = none)
    (hdist : (fs.map clientKeyOf).Nodup) :
    (∀ k, k ≤ fs.length →
      mget (runAll env m (fs.take k)).gateway_indexes svc =
        some ((c + k) % bl.backends_len)) ∧
    (∀ k, (hk : k < fs.length) →
      mget (runAll env m (fs.take (k + 1))).lb_connections
          (clientKeyOf (fs.get ⟨k, hk⟩)) =
        some { backend := (bl.backends.getD ((c + k) % bl.backends_len)
                 { daddr := 0, dport := 0, ifindex := 0 }),
               backend_key := svc, tcp_state := some TCPState.fresh }) :=
  rr_aux env svc bl hgw hlb hN hcap hfull fs m c hreg hcur hc hwf hnew hdist

/-- Witness for C2: two fresh clients against the fixture service with
cursor 0 — indices 0 then 1, the cursor wrapping back to 0. -/
theorem round_robin_sequence_witness :
    (∀ k, k ≤ ([frameW 1 1000, frameW 2 2000] : List Frame).length →
      mget (runAll envW mW (([frameW 1 1000, frameW 2 2000] : List Frame).take k)).gateway_indexes
          svcW =
        some ((0 + k) % blW.backends_len)) ∧
    (∀ k, (hk : k < ([frameW 1 1000, frameW 2 2000] : List Frame).length) →
      mget (runAll envW mW
            (([frameW 1 1000, frameW 2 2000] : List Frame).take (k + 1))).lb_connections
          (clientKeyOf (([frameW 1 1000, frameW 2 2000] : List Frame).get ⟨k, hk⟩)) =
        some { backend := (blW.backends.getD ((0 + k) % blW.backends_len)
                 { daddr := 0, dport := 0, ifindex := 0 }),
               backend_key := svcW, tcp_state := some TCPState.fresh }) :=
  round_robin_sequence envW mW svcW blW 0 [frameW 1 1000, frameW 2 2000]
    (by decide) (by decide) (by decide) (by decide) (by decide) (by decide)
    (by decide) (by decide) (by decide) (by decide) (by decide)

end Blixt
